import Mathlib

/-
  Verification development for the simulation core of the repository:
  time control (time-control.service.ts), scenario generation
  (scenarios.service.ts), historical replay (historical.service.ts) and the
  simulation orchestrator (simulation.service.ts).

  JavaScript floating-point numbers are modelled as real numbers; where a
  claim depends on non-finite values (NaN, Infinity) a dedicated type
  `JSNum` models them explicitly.  `Math.random()` draws are modelled as an
  injected stream of values.  ISO-8601 timestamps are modelled as real-valued
  epoch milliseconds (for the clock) or as opaque strings (where only hashed).
-/

namespace SimCore

/-- JS `x || d` on numbers: `0` (and absent/`undefined`, modelled as `0`)
falls back to the default `d`, any other value is kept. -/
noncomputable def jsOr (x d : ℝ) : ℝ := if x = 0 then d else x

namespace TimeControl

/-- The `status: 'running' | 'paused'` field of `TimeControlData`. -/
inductive Status where
  | running
  | paused
deriving DecidableEq

/-- Embeds `TimeControlData` of time-control.service.ts.  Times are epoch
milliseconds. -/
structure Data where
  simulationId : String
  startTime : ℝ
  currentTime : ℝ
  timeScale : ℝ
  status : Status
  lastUpdateRealTime : ℝ

/-- Embeds the `TimeInfoDto` returned by the time-control operations. -/
structure TimeInfo where
  simulationId : String
  currentTime : ℝ
  timeScale : ℝ
  status : Status
  realTimeFactor : ℝ

/-- Embeds `TimeControlService.calculateRealTimeFactor`: the time scale while
running, `0` while paused. -/
def calculateRealTimeFactor (d : Data) : ℝ :=
  if d.status = .running then d.timeScale else 0

/-- The `TimeInfoDto` literal each operation returns, built from the
(already mutated) `TimeControlData`. -/
def mkTimeInfo (d : Data) : TimeInfo :=
  { simulationId := d.simulationId
    currentTime := d.currentTime
    timeScale := d.timeScale
    status := d.status
    realTimeFactor := calculateRealTimeFactor d }

/-- Embeds `TimeControlService.updateCurrentTime`: advance `currentTime` by the
elapsed wall time since the last sync, multiplied by the time scale, and
record `now` as the new sync point.  `now` is the injected `Date.now()`. -/
def updateCurrentTime (d : Data) (now : ℝ) : Data :=
  let elapsedRealMs := now - d.lastUpdateRealTime
  let elapsedSimMs := elapsedRealMs * d.timeScale
  { d with currentTime := d.currentTime + elapsedSimMs, lastUpdateRealTime := now }

/-- Embeds `TimeControlService.getCurrentTime`: sync the clock if running, then
report.  Returns the updated store record together with the DTO. -/
def getCurrentTime (d : Data) (now : ℝ) : Data × TimeInfo :=
  let d1 := if d.status = .running then updateCurrentTime d now else d
  (d1, mkTimeInfo d1)

/-- Embeds `TimeControlService.pause`: sync if running, then set status to paused. -/
def pause (d : Data) (now : ℝ) : Data × TimeInfo :=
  let d1 := if d.status = .running then updateCurrentTime d now else d
  let d2 := { d1 with status := Status.paused }
  (d2, mkTimeInfo d2)

/-- Embeds `TimeControlService.resume`: set status to running and reset the sync
point to `now`; `currentTime` is left at its frozen value (no catch-up). -/
def resume (d : Data) (now : ℝ) : Data × TimeInfo :=
  let d1 := { d with status := Status.running, lastUpdateRealTime := now }
  (d1, mkTimeInfo d1)

/-- Embeds `TimeControlService.reset`: set `currentTime` back to `startTime` and
pause. -/
def reset (d : Data) : Data × TimeInfo :=
  let d1 := { d with currentTime := d.startTime, status := Status.paused }
  (d1, mkTimeInfo d1)

/-- A JavaScript `number` argument, distinguishing the non-finite values
that `validateTimeScale` must handle from the finite ones. -/
inductive JSNum where
  | nan
  | posInf
  | negInf
  | fin (x : ℝ)

/-- Embeds `TimeControlService.validateTimeScale`, case-split over JS number
semantics: `isNaN(t)` rejects only NaN; `t <= 0` is false for NaN and
`+Infinity` and true for `-Infinity`; `Math.max(0.1, Math.min(1000, t))`
clamps, sending `+Infinity` to `1000`. -/
noncomputable def validateTimeScale : JSNum → Except String ℝ
  | .nan => .error "Time scale must be a positive number"
  | .negInf => .error "Time scale must be a positive number"
  | .posInf => .ok 1000
  | .fin x =>
      if x ≤ 0 then .error "Time scale must be a positive number"
      else .ok (max 0.1 (min 1000 x))

/-- Embeds `TimeControlService.setTimeScale`: sync under the old scale if running,
validate and clamp the new scale, record `now` as the sync point. -/
noncomputable def setTimeScale (d : Data) (now : ℝ) (timeScale : JSNum) :
    Except String (Data × TimeInfo) :=
  let d1 := if d.status = .running then updateCurrentTime d now else d
  match validateTimeScale timeScale with
  | .error e => .error e
  | .ok v =>
      let d2 := { d1 with timeScale := v, lastUpdateRealTime := now }
      .ok (d2, mkTimeInfo d2)

/-- Embeds `TimeControlService.setCurrentTime`: `none` models an unparsable
timestamp (`new Date(ts).getTime()` is NaN), `some t` a parsed epoch time. -/
def setCurrentTime (d : Data) (now : ℝ) (timestamp : Option ℝ) :
    Except String (Data × TimeInfo) :=
  match timestamp with
  | none => .error "Invalid timestamp"
  | some t =>
      let d1 := { d with currentTime := t, lastUpdateRealTime := now }
      .ok (d1, mkTimeInfo d1)

/-- The `realTimeFactor` consistency property of a returned `TimeInfoDto`. -/
def factorConsistent (info : TimeInfo) : Prop :=
  (info.status = .running → info.realTimeFactor = info.timeScale) ∧
  (info.status = .paused → info.realTimeFactor = 0)

end TimeControl

namespace Simulation

/-- Result object of `SimulationService.terminateSimulation`. -/
structure TerminateResult where
  success : Bool

/-- Per-token entry of the mock market state in `getSimulationState`. -/
structure SimTokenState where
  price : ℝ

/-- The `marketState` field of `SimulationStateDto`. -/
structure MarketState where
  tokens : List (String × SimTokenState)
  gasPrice : ℝ
  blockNumber : ℕ

/-- The `agentState` field of `SimulationStateDto`. -/
structure AgentState where
  balance : List (String × String)
  pendingActions : ℕ
  completedActions : ℕ

/-- Embeds the `SimulationStateDto` returned by `SimulationService.getSimulationState`. -/
structure SimulationState where
  simulationId : String
  currentTime : String
  timeScale : ℝ
  status : String
  marketState : MarketState
  agentState : AgentState

/-- Embeds `SimulationService.terminateSimulation`: the body performs no state
change at all and unconditionally returns `{ success: true }`. -/
def terminateSimulation (_simulationId : String) : TerminateResult :=
  { success := true }

/-- Embeds `SimulationService.getSimulationState`: the body consults no store and
unconditionally returns a mock `SimulationStateDto`; `rand` injects the
`Math.random()` draws and `nowIso` the `new Date().toISOString()` value.
Being total, it can never fail with `NotFound` for any simulation id. -/
def getSimulationState (rand : ℕ → ℝ) (nowIso : String) (simulationId : String) :
    SimulationState :=
  { simulationId := simulationId
    currentTime := nowIso
    timeScale := 1.0
    status := "running"
    marketState :=
      { tokens := [("ETH", { price := 2500 + rand 0 * 100 }),
                   ("BTC", { price := 40000 + rand 1 * 1000 }),
                   ("USDC", { price := 1.0 })]
        gasPrice := 50 + rand 2 * 20
        blockNumber := 12345678 }
    agentState :=
      { balance := [("ETH", "1.5"), ("USDC", "5000")]
        pendingActions := 0
        completedActions := 5 } }

end Simulation

namespace Scenarios

/-- JS coercion to a signed 32-bit integer, as performed by `<< 5` and by
`hash & hash` inside `simpleHash`. -/
def toInt32 (n : ℤ) : ℤ := (n + 2 ^ 31) % 2 ^ 32 - 2 ^ 31

/-- One iteration of the `simpleHash` loop:
`hash = ((hash << 5) - hash) + char; hash = hash & hash`.  The running
hash is already a 32-bit value, so `hash << 5` wraps `hash * 32`. -/
def hashStep (h : ℤ) (c : ℕ) : ℤ := toInt32 (toInt32 (h * 32) - h + c)

/-- Embeds `ScenariosService.simpleHash` (HistoricalService contains a
character-for-character identical copy, embedded once here): fold the
character codes through `hashStep`, then `Math.abs`. -/
def simpleHash (s : String) : ℤ :=
  ((s.data.foldl (fun h c => hashStep h c.toNat) 0).natAbs : ℤ)

/-- ASCII lower-casing of one character code, as
`String.prototype.toLowerCase` acts on the token names. -/
def lowerCode (n : ℕ) : ℕ := if 65 ≤ n ∧ n ≤ 90 then n + 32 else n

/-- The character codes of a string. -/
def codes (s : String) : List ℕ := s.data.map Char.toNat

/-- JS `s.toLowerCase().includes(pat)` for an already-lowercase `pat`,
modelled on character codes. -/
def lowerIncludes (s pat : String) : Bool :=
  decide (codes pat <:+: (codes s).map lowerCode)

/-- Embeds `ScenariosService.getBasePriceForToken`: band the hash of the token
name into one of four price regimes. -/
noncomputable def getBasePriceForToken (token : String) : ℝ :=
  let hash := simpleHash token
  if lowerIncludes token "btc" then 30000 + ((hash % 20000 : ℤ) : ℝ)
  else if lowerIncludes token "eth" then 1500 + ((hash % 2000 : ℤ) : ℝ)
  else if lowerIncludes token "usdc" || lowerIncludes token "usdt" then
    0.98 + ((hash % 5 : ℤ) : ℝ) / 100
  else 0.1 + ((hash % 1000 : ℤ) : ℝ) / 10

/-- The scenario `parameters` object; an absent optional field is modelled
as `0`, which JS `||` (see `jsOr`) sends to the same default as
`undefined`. -/
structure ScenarioParams where
  intensity : ℝ := 0
  direction_bias : ℝ := 0
  range_width : ℝ := 0
  recovery_speed : ℝ := 0
  duration : ℝ := 0

/-- The seven recognized scenario archetypes (`validScenarios` inside
`validateScenarioType`). -/
def validScenarios : List String :=
  ["bull_market", "bear_market", "market_crash", "sideways_market",
   "high_volatility", "liquidity_crisis", "flash_crash"]

/-- Embeds `ScenariosService.validateScenarioType` (called by `initialize` only,
not by `getScenarioData`). -/
def validateScenarioType (scenarioType : String) : Except String Unit :=
  if scenarioType ∈ validScenarios then .ok ()
  else .error ("Invalid scenario type: " ++ scenarioType)

/-- Configuration record built by `getScenarioConfig`; fields a scenario
does not set keep the default `0`. -/
structure ScenarioConfig where
  description : String
  duration : ℝ
  intensity : ℝ := 0
  recovery_speed : ℝ := 0
  range_width : ℝ := 0
  direction_bias : ℝ := 0
  difficulty : String

/-- Embeds `ScenariosService.getScenarioConfig`: per-scenario defaults; an
unrecognized type falls back to the bull_market entry
(`configs[scenarioType] || configs['bull_market']`). -/
noncomputable def getScenarioConfig (scenarioType : String)
    (parameters : ScenarioParams) : ScenarioConfig :=
  if scenarioType = "bull_market" then
    { description := "Sustained upward price movement with low volatility",
      duration := jsOr parameters.duration (7 * 24 * 60 * 60),
      intensity := jsOr parameters.intensity 0.5,
      difficulty := "easy" }
  else if scenarioType = "bear_market" then
    { description := "Sustained downward price movement with moderate volatility",
      duration := jsOr parameters.duration (14 * 24 * 60 * 60),
      intensity := jsOr parameters.intensity 0.5,
      difficulty := "medium" }
  else if scenarioType = "market_crash" then
    { description := "Sudden sharp decline in prices with high volatility",
      duration := 24 * 60 * 60,
      intensity := jsOr parameters.intensity 0.7,
      recovery_speed := jsOr parameters.recovery_speed 0.3,
      difficulty := "hard" }
  else if scenarioType = "sideways_market" then
    { description := "Range-bound price movement with low volatility",
      duration := jsOr parameters.duration (30 * 24 * 60 * 60),
      range_width := jsOr parameters.range_width 0.1,
      difficulty := "medium" }
  else if scenarioType = "high_volatility" then
    { description := "Erratic price movements with high volatility",
      duration := jsOr parameters.duration (3 * 24 * 60 * 60),
      intensity := jsOr parameters.intensity 0.8,
      direction_bias := jsOr parameters.direction_bias 0,
      difficulty := "hard" }
  else if scenarioType = "liquidity_crisis" then
    { description := "Reduced market depth and wider spreads",
      duration := jsOr parameters.duration (2 * 24 * 60 * 60),
      intensity := jsOr parameters.intensity 0.6,
      difficulty := "expert" }
  else if scenarioType = "flash_crash" then
    { description := "Extremely rapid price decline followed by recovery",
      duration := 4 * 60 * 60,
      intensity := jsOr parameters.intensity 0.9,
      recovery_speed := jsOr parameters.recovery_speed 0.5,
      difficulty := "expert" }
  else
    { description := "Sustained upward price movement with low volatility",
      duration := jsOr parameters.duration (7 * 24 * 60 * 60),
      intensity := jsOr parameters.intensity 0.5,
      difficulty := "easy" }

/-- Embeds `ScenariosService.getPriceModifier`. -/
noncomputable def getPriceModifier (scenarioType : String)
    (parameters : ScenarioParams) (progress : ℝ) : ℝ :=
  let intensity := jsOr parameters.intensity 0.5
  if scenarioType = "bull_market" then
    1 + intensity * progress
  else if scenarioType = "bear_market" then
    1 - intensity * 0.7 * progress
  else if scenarioType = "market_crash" then
    let crashPoint := min 1 (progress / 0.2)
    let recoveryPoint := max 0 ((progress - 0.2) / 0.8)
    let recoverySpeed := jsOr parameters.recovery_speed 0.3
    let crashEffect := intensity * (1 - Real.exp (-5 * crashPoint))
    let recoveryEffect := recoverySpeed * recoveryPoint
    1 - crashEffect + crashEffect * recoveryEffect
  else if scenarioType = "sideways_market" then
    let rangeWidth := jsOr parameters.range_width 0.1
    1 + rangeWidth * Real.sin (progress * 10 * Real.pi)
  else if scenarioType = "high_volatility" then
    let directionBias := jsOr parameters.direction_bias 0
    1 + intensity * 0.5 * Real.sin (progress * 20 * Real.pi) + directionBias * progress
  else if scenarioType = "liquidity_crisis" then
    1 - intensity * 0.3 * progress + intensity * 0.2 * Real.sin (progress * 15 * Real.pi)
  else if scenarioType = "flash_crash" then
    let flashCrashPhase :=
      if progress < 0.1 then 0
      else if progress < 0.3 then (progress - 0.1) / 0.2
      else 1
    let flashCrashRecovery := if progress < 0.3 then 0 else (progress - 0.3) / 0.7
    let crashDepth := intensity * 0.7
    1 - crashDepth * flashCrashPhase
      + crashDepth * parameters.recovery_speed * flashCrashRecovery
  else 1

/-- Embeds `ScenariosService.getVolumeModifier`. -/
noncomputable def getVolumeModifier (scenarioType : String)
    (parameters : ScenarioParams) (progress : ℝ) : ℝ :=
  let intensity := jsOr parameters.intensity 0.5
  if scenarioType = "bull_market" then
    1 + intensity * progress
  else if scenarioType = "bear_market" then
    1 + intensity * progress * (1 - progress)
  else if scenarioType = "market_crash" then
    let crashPoint := min 1 (progress / 0.2)
    1 + intensity * 3 * Real.exp (-10 * (crashPoint - 0.5) * (crashPoint - 0.5))
  else if scenarioType = "sideways_market" then
    0.7 + 0.5 * Real.sin (progress * 10 * Real.pi) ^ 2
  else if scenarioType = "high_volatility" then
    1.5 + intensity * Real.sin (progress * 20 * Real.pi)
  else if scenarioType = "liquidity_crisis" then
    1 - intensity * 0.7 * progress
  else if scenarioType = "flash_crash" then
    let flashCrashPhase :=
      if progress < 0.1 then 0
      else if progress < 0.3 then (progress - 0.1) / 0.2
      else 1
    let flashCrashRecovery := if progress < 0.3 then 0 else (progress - 0.3) / 0.7
    1 + intensity * 4 * Real.exp (-10 * (flashCrashPhase - 0.5) * (flashCrashPhase - 0.5))
      + intensity * 2 * Real.exp (-10 * (flashCrashRecovery - 0.3) * (flashCrashRecovery - 0.3))
  else 1

/-- Embeds `ScenariosService.getDepthModifier`. -/
noncomputable def getDepthModifier (scenarioType : String)
    (parameters : ScenarioParams) (progress : ℝ) : ℝ :=
  let intensity := jsOr parameters.intensity 0.5
  if scenarioType = "bull_market" then
    1 + intensity * 0.5 * progress
  else if scenarioType = "bear_market" then
    1 - intensity * 0.3 * progress
  else if scenarioType = "market_crash" then
    let crashPoint := min 1 (progress / 0.2)
    1 - intensity * 0.8 * Real.exp (-5 * (crashPoint - 0.5) * (crashPoint - 0.5))
  else if scenarioType = "sideways_market" then
    1 + 0.1 * Real.sin (progress * 10 * Real.pi)
  else if scenarioType = "high_volatility" then
    1 + intensity * 0.5 * Real.sin (progress * 15 * Real.pi)
  else if scenarioType = "liquidity_crisis" then
    1 - intensity * 0.8 * progress
  else if scenarioType = "flash_crash" then
    let flashCrashPhase :=
      if progress < 0.1 then 0
      else if progress < 0.3 then (progress - 0.1) / 0.2
      else 1
    let flashCrashRecovery := if progress < 0.3 then 0 else (progress - 0.3) / 0.7
    1 - intensity * 0.9 * flashCrashPhase + intensity * 0.7 * flashCrashRecovery
  else 1

/-- Embeds `ScenariosService.getPriceChange`; `r` is the `Math.random()` draw of
the taken branch. -/
noncomputable def getPriceChange (scenarioType : String)
    (parameters : ScenarioParams) (progress : ℝ) (r : ℝ) : ℝ :=
  let intensity := jsOr parameters.intensity 0.5
  if scenarioType = "bull_market" then
    intensity * 5 + intensity * 5 * r
  else if scenarioType = "bear_market" then
    -intensity * 5 - intensity * 5 * r
  else if scenarioType = "market_crash" then
    let crashPoint := min 1 (progress / 0.2)
    if crashPoint < 0.8 then -intensity * 20 - intensity * 10 * r
    else intensity * 5 + intensity * 5 * r
  else if scenarioType = "sideways_market" then
    (r * 2 - 1) * intensity * 3
  else if scenarioType = "high_volatility" then
    (r * 2 - 1) * intensity * 15
  else if scenarioType = "liquidity_crisis" then
    -intensity * 8 - intensity * 7 * r
  else if scenarioType = "flash_crash" then
    let flashCrashPhase :=
      if progress < 0.1 then 0
      else if progress < 0.3 then (progress - 0.1) / 0.2
      else 1
    if flashCrashPhase < 0.5 then -intensity * 30 - intensity * 20 * r
    else intensity * 15 + intensity * 10 * r
  else (r * 2 - 1) * 5

/-- Side of the order book. -/
inductive OrderType where
  | ask
  | bid
deriving DecidableEq

/-- One `{ price, amount }` level of the synthesized order book. -/
structure OrderLevel where
  price : ℝ
  amount : ℝ

/-- Embeds `ScenariosService.generateOrderBook`; `rand` injects the
`Math.random()` jitter draw of each level. -/
noncomputable def generateOrderBook (type : OrderType) (price : ℝ)
    (levels : ℕ) (depthModifier : ℝ) (rand : ℕ → ℝ) : List OrderLevel :=
  (List.range levels).map fun (i : ℕ) =>
    let priceOffset :=
      if type = .ask then ((i : ℝ) + 1) * 0.001 * price
      else -(((i : ℝ) + 1) * 0.001 * price)
    let levelPrice := price + priceOffset
    let amount := depthModifier * (1000 - (i : ℝ) * 150) * (1 + 0.2 * rand i)
    { price := levelPrice, amount := amount }

/-- The three `marketMetrics` fields of `ScenarioMarketDataDto`. -/
structure MarketMetrics where
  volatilityIndex : ℝ
  liquidityIndex : ℝ
  sentimentIndex : ℝ

/-- The `switch (scenarioType)` of `generateMarketData` that fills in
`marketData.marketMetrics`; the `default` branch repeats the bull_market
formulas. -/
noncomputable def scenarioMarketMetrics (scenarioType : String)
    (progress : ℝ) : MarketMetrics :=
  if scenarioType = "bull_market" then
    { volatilityIndex := 20 + 10 * Real.sin (progress * Real.pi),
      liquidityIndex := 80 + 10 * Real.sin (progress * Real.pi),
      sentimentIndex := 70 + 20 * progress }
  else if scenarioType = "bear_market" then
    { volatilityIndex := 40 + 20 * Real.sin (progress * Real.pi),
      liquidityIndex := 60 - 20 * progress,
      sentimentIndex := 30 - 20 * progress }
  else if scenarioType = "market_crash" then
    let crashPoint := min 1 (progress / 0.2)
    { volatilityIndex := 50 + 50 * Real.exp (-5 * (crashPoint - 0.5) * (crashPoint - 0.5)),
      liquidityIndex := 80 - 60 * Real.exp (-5 * (crashPoint - 0.5) * (crashPoint - 0.5)),
      sentimentIndex := 50 - 40 * Real.exp (-5 * (crashPoint - 0.5) * (crashPoint - 0.5)) }
  else if scenarioType = "sideways_market" then
    { volatilityIndex := 30 + 10 * Real.sin (progress * 10 * Real.pi),
      liquidityIndex := 70 + 10 * Real.sin (progress * 5 * Real.pi),
      sentimentIndex := 50 + 10 * Real.sin (progress * 8 * Real.pi) }
  else if scenarioType = "high_volatility" then
    { volatilityIndex := 70 + 30 * Real.sin (progress * 20 * Real.pi),
      liquidityIndex := 50 + 20 * Real.sin (progress * 15 * Real.pi),
      sentimentIndex := 40 + 30 * Real.sin (progress * 10 * Real.pi) }
  else if scenarioType = "liquidity_crisis" then
    { volatilityIndex := 60 + 20 * progress,
      liquidityIndex := 70 - 60 * progress,
      sentimentIndex := 40 - 30 * progress }
  else if scenarioType = "flash_crash" then
    let flashCrashPhase :=
      if progress < 0.1 then 0
      else if progress < 0.3 then (progress - 0.1) / 0.2
      else 1
    let flashCrashRecovery := if progress < 0.3 then 0 else (progress - 0.3) / 0.7
    { volatilityIndex := 30 + 70 * Real.exp (-10 * (flashCrashPhase - 0.5) * (flashCrashPhase - 0.5)),
      liquidityIndex := 80 - 70 * flashCrashPhase + 50 * flashCrashRecovery,
      sentimentIndex := 60 - 50 * flashCrashPhase + 30 * flashCrashRecovery }
  else
    { volatilityIndex := 20 + 10 * Real.sin (progress * Real.pi),
      liquidityIndex := 80 + 10 * Real.sin (progress * Real.pi),
      sentimentIndex := 70 + 20 * progress }

/-- Per-token entry of `ScenarioMarketDataDto`. -/
structure TokenScenarioData where
  price : ℝ
  priceChange24h : ℝ
  volume : ℤ
  asks : List OrderLevel
  bids : List OrderLevel

/-- Embeds `ScenarioMarketDataDto`. -/
structure ScenarioMarketData where
  timestamp : String
  progress : ℝ
  tokens : List (String × TokenScenarioData)
  marketMetrics : MarketMetrics

/-- Embeds `ScenariosService.generateMarketData`; `nowIso` injects
`new Date().toISOString()` and `rand i k` the `Math.random()` draws of the
i-th token (`k = 0` for `getPriceChange`, `1..5` ask levels, `6..10` bid
levels).  The locally computed `config` of the source is unused there and
omitted. -/
noncomputable def generateMarketData (scenarioType : String)
    (parameters : ScenarioParams) (progress : ℝ) (tokens : List String)
    (nowIso : String) (rand : ℕ → ℕ → ℝ) : ScenarioMarketData :=
  { timestamp := nowIso
    progress := progress
    tokens := tokens.enum.map fun e =>
      let basePrice := getBasePriceForToken e.2
      let priceModifier := getPriceModifier scenarioType parameters progress
      let price := basePrice * priceModifier
      let volumeModifier := getVolumeModifier scenarioType parameters progress
      let depthModifier := getDepthModifier scenarioType parameters progress
      (e.2,
        { price := price
          priceChange24h := getPriceChange scenarioType parameters progress (rand e.1 0)
          volume := ⌊1000000 * volumeModifier⌋
          asks := generateOrderBook .ask price 5 depthModifier (fun k => rand e.1 (1 + k))
          bids := generateOrderBook .bid price 5 depthModifier (fun k => rand e.1 (6 + k)) })
    marketMetrics := scenarioMarketMetrics scenarioType progress }

/-- Embeds `ScenariosService.getScenarioData`: derive the progress fraction from
the configured duration (clamped into [0,1]), then generate market data.
`startTime` and `currentTime` are parsed epoch milliseconds. -/
noncomputable def getScenarioData (scenarioType : String)
    (parameters : ScenarioParams) (startTime currentTime : ℝ)
    (tokens : List String) (nowIso : String) (rand : ℕ → ℕ → ℝ) :
    ScenarioMarketData :=
  let scenarioConfig := getScenarioConfig scenarioType parameters
  let progress := min 1 (max 0 ((currentTime - startTime) / (scenarioConfig.duration * 1000)))
  generateMarketData scenarioType parameters progress tokens nowIso rand

end Scenarios

namespace Historical

/-- Embeds `HistoricalService.getBasePriceForToken`: same banding as the
scenarios variant, but hashing `token + timestamp.toISOString()`. -/
noncomputable def getBasePriceForToken (token : String) (timestampIso : String) : ℝ :=
  let hash := Scenarios.simpleHash (token ++ timestampIso)
  if Scenarios.lowerIncludes token "btc" then 30000 + ((hash % 20000 : ℤ) : ℝ)
  else if Scenarios.lowerIncludes token "eth" then 1500 + ((hash % 2000 : ℤ) : ℝ)
  else if Scenarios.lowerIncludes token "usdc"
      || Scenarios.lowerIncludes token "usdt" then
    0.98 + ((hash % 5 : ℤ) : ℝ) / 100
  else 0.1 + ((hash % 1000 : ℤ) : ℝ) / 10

/-- Per-token entry of `HistoricalMarketDataDto`. -/
structure HistTokenData where
  price : ℝ
  volume : ℤ
  marketCap : ℝ
  supply : ℤ

/-- Embeds `HistoricalMarketDataDto`. -/
structure HistoricalMarketData where
  timestamp : String
  tokens : List (String × HistTokenData)
  totalVolume : ℤ
  volatilityIndex : ℝ

/-- Embeds `HistoricalService.getHistoricalData`; `rand` injects the sequential
`Math.random()` draws (indices 0-1 for the market metrics, then three per
token). Only the price is computed deterministically from
`(token, timestamp)`. -/
noncomputable def getHistoricalData (rand : ℕ → ℝ) (timestampIso : String)
    (tokens : List String) : HistoricalMarketData :=
  { timestamp := timestampIso
    tokens := tokens.enum.map fun e =>
      let basePrice := getBasePriceForToken e.2 timestampIso
      (e.2,
        { price := basePrice
          volume := ⌊rand (2 + 3 * e.1) * 10000000⌋
          marketCap := basePrice * ((⌊rand (3 + 3 * e.1) * 1000000000⌋ : ℤ) : ℝ)
          supply := ⌊rand (4 + 3 * e.1) * 1000000000⌋ })
    totalVolume := ⌊rand 0 * 1000000000⌋
    volatilityIndex := rand 1 * 100 }

end Historical

/-- A concrete running clock record, used to instantiate theorems. -/
def sampleData : TimeControl.Data :=
  { simulationId := "sim-1"
    startTime := 0
    currentTime := 0
    timeScale := 1
    status := .running
    lastUpdateRealTime := 0 }

end SimCore

open SimCore

/-- C5: while Running, reading the clock after a wall-clock advance of
`delta` returns the previous `currentTime` plus `delta * timeScale`, and
records the new wall time as the sync point. -/
theorem C5_running_advance (d : TimeControl.Data) (delta : ℝ)
    (hrun : d.status = .running)
    (hs1 : 0.1 ≤ d.timeScale) (hs2 : d.timeScale ≤ 1000) (hd : 0 ≤ delta) :
    (TimeControl.getCurrentTime d (d.lastUpdateRealTime + delta)).2.currentTime
      = d.currentTime + delta * d.timeScale ∧
    (TimeControl.getCurrentTime d (d.lastUpdateRealTime + delta)).1.lastUpdateRealTime
      = d.lastUpdateRealTime + delta := by
  simp only [TimeControl.getCurrentTime, TimeControl.updateCurrentTime,
    TimeControl.mkTimeInfo, hrun, if_pos]
  constructor
  · ring
  · trivial

/-- Witness for C5 at a concrete running state and advance 2. -/
theorem C5_witness :
    (TimeControl.getCurrentTime sampleData (sampleData.lastUpdateRealTime + 2)).2.currentTime
      = sampleData.currentTime + 2 * sampleData.timeScale ∧
    (TimeControl.getCurrentTime sampleData (sampleData.lastUpdateRealTime + 2)).1.lastUpdateRealTime
      = sampleData.lastUpdateRealTime + 2 :=
  C5_running_advance sampleData 2 rfl (by norm_num [sampleData])
    (by norm_num [sampleData]) (by norm_num)

/-- C6: after `pause`, reads at any later wall time leave `currentTime`
unchanged (and do not mutate the record); after a subsequent `resume` at
`t2`, a read at `t2 + delta` yields the frozen value plus
`delta * timeScale` — the paused interval contributes nothing. -/
theorem C6_pause_resume (d : TimeControl.Data) (t1 t2 delta : ℝ) :
    (TimeControl.getCurrentTime (TimeControl.pause d t1).1 t2).2.currentTime
      = (TimeControl.pause d t1).1.currentTime ∧
    (TimeControl.getCurrentTime (TimeControl.pause d t1).1 t2).1
      = (TimeControl.pause d t1).1 ∧
    (TimeControl.getCurrentTime
        (TimeControl.resume (TimeControl.pause d t1).1 t2).1 (t2 + delta)).2.currentTime
      = (TimeControl.pause d t1).1.currentTime + delta * d.timeScale := by
  cases hst : d.status <;>
    refine ⟨?_, ?_, ?_⟩ <;>
    simp [TimeControl.pause, TimeControl.resume, TimeControl.getCurrentTime,
      TimeControl.updateCurrentTime, TimeControl.mkTimeInfo, hst]

/-- C1 (code bug evidence): `terminateSimulation` unconditionally succeeds
without releasing anything, and for the very same id a subsequent
`getSimulationState` still returns a mock market snapshot with status
"running" and three priced tokens — it is a total function and cannot fail
with `NotFound`, contradicting the specified lifecycle. -/
theorem C1_terminate_then_getState_returns_snapshot (id : String)
    (rand : ℕ → ℝ) (nowIso : String) :
    (Simulation.terminateSimulation id).success = true ∧
    (Simulation.getSimulationState rand nowIso id).simulationId = id ∧
    (Simulation.getSimulationState rand nowIso id).status = "running" ∧
    (Simulation.getSimulationState rand nowIso id).marketState.tokens.length = 3 :=
  ⟨rfl, rfl, rfl, rfl⟩

/-- C4 counterexample: `+Infinity` is non-finite, yet `setTimeScale` does
not fail — `isNaN` misses it and `Infinity <= 0` is false — and the stored
time scale becomes the clamped value `1000`. -/
theorem C4_counterexample :
    TimeControl.validateTimeScale TimeControl.JSNum.posInf = Except.ok 1000 ∧
    TimeControl.setTimeScale sampleData 0 TimeControl.JSNum.posInf
      = Except.ok
          ({ simulationId := "sim-1", startTime := 0, currentTime := 0,
             timeScale := 1000, status := .running, lastUpdateRealTime := 0 },
           { simulationId := "sim-1", currentTime := 0, timeScale := 1000,
             status := .running, realTimeFactor := 1000 }) := by
  constructor
  · rfl
  · simp [TimeControl.setTimeScale, TimeControl.validateTimeScale,
      TimeControl.updateCurrentTime, TimeControl.mkTimeInfo,
      TimeControl.calculateRealTimeFactor, sampleData]

/-- C4 amended: `setTimeScale` fails (with the "positive number" error)
exactly when the new scale is NaN or less than or equal to 0 (including
negative infinity); every other input succeeds, with a finite positive
scale stored clamped into [0.1, 1000] and positive infinity stored as
1000. -/
theorem C4_setTimeScale_amended (d : TimeControl.Data) (now : ℝ)
    (ts : TimeControl.JSNum) :
    ((∃ e, TimeControl.setTimeScale d now ts = .error e) ↔
        (ts = .nan ∨ ts = .negInf ∨ ∃ x, ts = .fin x ∧ x ≤ 0)) ∧
    (∀ r, TimeControl.setTimeScale d now ts = .ok r → ts = .posInf →
        r.1.timeScale = 1000) ∧
    (∀ x r, ts = .fin x → TimeControl.setTimeScale d now ts = .ok r →
        r.1.timeScale = max 0.1 (min 1000 x)) := by
  cases ts with
  | nan => simp [TimeControl.setTimeScale, TimeControl.validateTimeScale]
  | posInf => simp [TimeControl.setTimeScale, TimeControl.validateTimeScale]
  | negInf => simp [TimeControl.setTimeScale, TimeControl.validateTimeScale]
  | fin x =>
      rcases le_or_lt x 0 with hx | hx
      · simp [TimeControl.setTimeScale, TimeControl.validateTimeScale, hx]
      · simp [TimeControl.setTimeScale, TimeControl.validateTimeScale,
          not_le.mpr hx, hx.not_le]

/-- Witness for C4 amended: at scale 0 the call fails. -/
theorem C4_witness :
    (TimeControl.setTimeScale sampleData 0 (TimeControl.JSNum.fin 0)).isOk = false := by
  rcases (C4_setTimeScale_amended sampleData 0 (.fin 0)).1.mpr
      (Or.inr (Or.inr ⟨0, rfl, le_refl 0⟩)) with ⟨e, he⟩
  rw [he]
  rfl

/-- Every operation returns the DTO built by `mkTimeInfo`, whose
`realTimeFactor` is `calculateRealTimeFactor` of the same record. -/
theorem factorConsistent_mkTimeInfo (d : TimeControl.Data) :
    TimeControl.factorConsistent (TimeControl.mkTimeInfo d) := by
  cases hst : d.status <;>
    constructor <;>
    intro h <;>
    simp [TimeControl.mkTimeInfo, TimeControl.calculateRealTimeFactor,
      hst] at h ⊢

/-- C10: every `TimeInfoDto` returned by `getCurrentTime`, `pause`,
`resume`, `reset`, and by `setTimeScale` and `setCurrentTime` on success,
has `realTimeFactor` equal to the returned `timeScale` when the returned
status is running, and `0` when it is paused. -/
theorem C10_realTimeFactor_consistent (d : TimeControl.Data) (now : ℝ)
    (ts : TimeControl.JSNum) (tsv : Option ℝ) :
    TimeControl.factorConsistent (TimeControl.getCurrentTime d now).2 ∧
    TimeControl.factorConsistent (TimeControl.pause d now).2 ∧
    TimeControl.factorConsistent (TimeControl.resume d now).2 ∧
    TimeControl.factorConsistent (TimeControl.reset d).2 ∧
    (∀ r, TimeControl.setTimeScale d now ts = .ok r →
        TimeControl.factorConsistent r.2) ∧
    (∀ r, TimeControl.setCurrentTime d now tsv = .ok r →
        TimeControl.factorConsistent r.2) := by
  refine ⟨factorConsistent_mkTimeInfo _, factorConsistent_mkTimeInfo _,
    factorConsistent_mkTimeInfo _, factorConsistent_mkTimeInfo _, ?_, ?_⟩
  · intro r hr
    unfold TimeControl.setTimeScale at hr
    rcases hv : TimeControl.validateTimeScale ts with e | v <;> rw [hv] at hr
    · exact absurd hr (by simp)
    · simp only [Except.ok.injEq] at hr
      rw [← hr]
      exact factorConsistent_mkTimeInfo _
  · intro r hr
    unfold TimeControl.setCurrentTime at hr
    rcases tsv with _ | t
    · exact absurd hr (by simp)
    · simp only [Except.ok.injEq] at hr
      rw [← hr]
      exact factorConsistent_mkTimeInfo _

/-- Witness for C10 (vacuously hypothesis-free conjunct) at a concrete
state and read. -/
theorem C10_witness :
    TimeControl.factorConsistent (TimeControl.getCurrentTime sampleData 5).2 :=
  (C10_realTimeFactor_consistent sampleData 5 (.fin 2) (some 3)).1

/-- Mapping a function of the element only over `enumFrom` forgets the
indices. -/
theorem map_snd_enumFrom {α β : Type _} (h : α → β) (n : ℕ) (l : List α) :
    ((List.enumFrom n l).map fun e => h e.2) = l.map h := by
  induction l generalizing n with
  | nil => rfl
  | cons a t ih => simp [List.enumFrom, ih]

/-- Mapping a function of the element only over `enum` forgets the
indices. -/
theorem map_snd_enum {α β : Type _} (h : α → β) (l : List α) :
    (l.enum.map fun e => h e.2) = l.map h :=
  map_snd_enumFrom h 0 l

/-- The per-token prices of `generateMarketData` are exactly
base price times the scenario price modifier. -/
theorem generateMarketData_price_map (s : String) (params : Scenarios.ScenarioParams)
    (p : ℝ) (tokens : List String) (nowIso : String) (rand : ℕ → ℕ → ℝ) :
    ((Scenarios.generateMarketData s params p tokens nowIso rand).tokens.map
        fun e => e.2.price)
      = tokens.map fun t =>
          Scenarios.getBasePriceForToken t * Scenarios.getPriceModifier s params p := by
  simp only [Scenarios.generateMarketData, List.map_map]
  exact map_snd_enum
    (fun t => Scenarios.getBasePriceForToken t * Scenarios.getPriceModifier s params p)
    tokens

/-- C7: the historical per-token prices are a pure function of
`(token, timestamp)` — two calls with identical arguments but different
`Math.random()` streams return identical prices, namely the deterministic
base price. -/
theorem C7_historical_price_deterministic (r1 r2 : ℕ → ℝ) (ts : String)
    (tokens : List String) :
    ((Historical.getHistoricalData r1 ts tokens).tokens.map fun e => (e.1, e.2.price))
      = ((Historical.getHistoricalData r2 ts tokens).tokens.map fun e => (e.1, e.2.price)) ∧
    ((Historical.getHistoricalData r1 ts tokens).tokens.map fun e => (e.1, e.2.price))
      = tokens.map fun t => (t, Historical.getBasePriceForToken t ts) := by
  have key : ∀ r : ℕ → ℝ,
      ((Historical.getHistoricalData r ts tokens).tokens.map fun e => (e.1, e.2.price))
        = tokens.map fun t => (t, Historical.getBasePriceForToken t ts) := by
    intro r
    simp only [Historical.getHistoricalData, List.map_map]
    exact map_snd_enum (fun t => (t, Historical.getBasePriceForToken t ts)) tokens
  exact ⟨(key r1).trans (key r2).symm, key r1⟩

/-- C8: for the market_crash scenario with intensity 0.7, the price
modifier at progress 0.1 (mid-crash) is strictly below the modifier at
progress 0 (pre-crash). -/
theorem C8_crash_mid_below_pre :
    Scenarios.getPriceModifier "market_crash" { intensity := 0.7 } 0.1
      < Scenarios.getPriceModifier "market_crash" { intensity := 0.7 } 0 := by
  have h0 : Scenarios.getPriceModifier "market_crash" { intensity := 0.7 } 0 = 1 := by
    simp only [Scenarios.getPriceModifier]
    rw [if_neg (by decide), if_neg (by decide)]
    simp only [if_true]
    rw [min_eq_right (by norm_num : (0 : ℝ) / 0.2 ≤ 1),
        max_eq_left (by norm_num : ((0 : ℝ) - 0.2) / 0.8 ≤ 0)]
    norm_num [jsOr, Real.exp_zero]
  have h1 : Scenarios.getPriceModifier "market_crash" { intensity := 0.7 } 0.1
      = 1 - 0.7 * (1 - Real.exp (-5 * (0.1 / 0.2))) := by
    simp only [Scenarios.getPriceModifier]
    rw [if_neg (by decide), if_neg (by decide)]
    simp only [if_true]
    rw [min_eq_right (by norm_num : (0.1 : ℝ) / 0.2 ≤ 1),
        max_eq_left (by norm_num : ((0.1 : ℝ) - 0.2) / 0.8 ≤ 0)]
    norm_num [jsOr]
  have hexp1 : Real.exp (-5 * ((0.1 : ℝ) / 0.2)) < 1 :=
    Real.exp_lt_one_iff.mpr (by norm_num)
  rw [h0, h1]
  linarith

/-- C9: with the `Math.random()` jitter fixed to zero, the order-book
amount is non-increasing in the level index, for every non-negative depth
modifier, base price and level count. -/
theorem C9_orderbook_amount_antitone (ty : Scenarios.OrderType) (price : ℝ)
    (levels : ℕ) (d : ℝ) (i j : ℕ) (a b : Scenarios.OrderLevel)
    (hd : 0 ≤ d) (hij : i ≤ j)
    (ha : (Scenarios.generateOrderBook ty price levels d (fun _ => 0))[i]? = some a)
    (hb : (Scenarios.generateOrderBook ty price levels d (fun _ => 0))[j]? = some b) :
    b.amount ≤ a.amount := by
  have key : ∀ (k : ℕ) (c : Scenarios.OrderLevel),
      (Scenarios.generateOrderBook ty price levels d (fun _ => 0))[k]? = some c →
      c.amount = d * (1000 - (k : ℝ) * 150) * (1 + 0.2 * 0) := by
    intro k c hc
    simp only [Scenarios.generateOrderBook, List.getElem?_map] at hc
    rcases Option.map_eq_some'.mp hc with ⟨v, hv, hfc⟩
    have hk : k < levels := by
      by_contra h
      rw [List.getElem?_eq_none (by simpa using h)] at hv
      exact Option.noConfusion hv
    rw [List.getElem?_range hk] at hv
    cases hv
    rw [← hfc]
  have hba := key j b hb
  have haa := key i a ha
  rw [hba, haa]
  have hcast : (i : ℝ) ≤ (j : ℝ) := Nat.cast_le.mpr hij
  have hmono : d * (1000 - (j : ℝ) * 150) ≤ d * (1000 - (i : ℝ) * 150) :=
    mul_le_mul_of_nonneg_left (by linarith) hd
  nlinarith [hmono]

/-- Witness for C9: levels 0 and 1 of a concrete jitter-free bid book. -/
theorem C9_witness :
    ({ price := 100 + -((((1 : ℕ) : ℝ) + 1) * 0.001 * 100),
       amount := 1 * (1000 - ((1 : ℕ) : ℝ) * 150) * (1 + 0.2 * 0) } : Scenarios.OrderLevel).amount
      ≤ ({ price := 100 + -((((0 : ℕ) : ℝ) + 1) * 0.001 * 100),
           amount := 1 * (1000 - ((0 : ℕ) : ℝ) * 150) * (1 + 0.2 * 0) } : Scenarios.OrderLevel).amount :=
  C9_orderbook_amount_antitone .bid 100 2 1 0 1 _ _ (by norm_num) (by norm_num) rfl rfl

/-- The function `jsOr` preserves non-negativity. -/
theorem jsOr_nonneg {x d : ℝ} (hx : 0 ≤ x) (hd : 0 ≤ d) : 0 ≤ jsOr x d := by
  unfold jsOr
  split_ifs <;> assumption

/-- The function `jsOr` preserves being at most one. -/
theorem jsOr_le_one {x d : ℝ} (hx : x ≤ 1) (hd : d ≤ 1) : jsOr x d ≤ 1 := by
  unfold jsOr
  split_ifs <;> assumption

/-- JS `x || 0` is `x` for numbers. -/
theorem jsOr_zero_right (x : ℝ) : jsOr x 0 = x := by
  unfold jsOr
  split_ifs with h
  · exact h.symm
  · rfl

/-- Every base price is strictly positive: all four banding branches add a
non-negative hash residue to a positive constant. -/
theorem getBasePriceForToken_pos (token : String) :
    0 < Scenarios.getBasePriceForToken token := by
  have h0 : (0 : ℤ) ≤ Scenarios.simpleHash token := Int.natCast_nonneg _
  unfold Scenarios.getBasePriceForToken
  dsimp only
  split_ifs
  · have h1 := Int.emod_nonneg (Scenarios.simpleHash token)
      (by norm_num : (20000 : ℤ) ≠ 0)
    have h2 : (0 : ℝ) ≤ ((Scenarios.simpleHash token % 20000 : ℤ) : ℝ) := by
      exact_mod_cast h1
    linarith
  · have h1 := Int.emod_nonneg (Scenarios.simpleHash token)
      (by norm_num : (2000 : ℤ) ≠ 0)
    have h2 : (0 : ℝ) ≤ ((Scenarios.simpleHash token % 2000 : ℤ) : ℝ) := by
      exact_mod_cast h1
    linarith
  · have h1 := Int.emod_nonneg (Scenarios.simpleHash token)
      (by norm_num : (5 : ℤ) ≠ 0)
    have h2 : (0 : ℝ) ≤ ((Scenarios.simpleHash token % 5 : ℤ) : ℝ) := by
      exact_mod_cast h1
    nlinarith
  · have h1 := Int.emod_nonneg (Scenarios.simpleHash token)
      (by norm_num : (1000 : ℤ) ≠ 0)
    have h2 : (0 : ℝ) ≤ ((Scenarios.simpleHash token % 1000 : ℤ) : ℝ) := by
      exact_mod_cast h1
    nlinarith

/-- Value of `getPriceModifier` on bull_market, by unfolding. -/
theorem getPriceModifier_eq_bull (params : Scenarios.ScenarioParams) (p : ℝ) :
    Scenarios.getPriceModifier "bull_market" params p
      = 1 + jsOr params.intensity 0.5 * p := rfl

/-- Value of `getPriceModifier` on bear_market, by unfolding. -/
theorem getPriceModifier_eq_bear (params : Scenarios.ScenarioParams) (p : ℝ) :
    Scenarios.getPriceModifier "bear_market" params p
      = 1 - jsOr params.intensity 0.5 * 0.7 * p := rfl

/-- Value of `getPriceModifier` on market_crash, by unfolding. -/
theorem getPriceModifier_eq_crash (params : Scenarios.ScenarioParams) (p : ℝ) :
    Scenarios.getPriceModifier "market_crash" params p
      = 1 - jsOr params.intensity 0.5 * (1 - Real.exp (-5 * min 1 (p / 0.2)))
        + jsOr params.intensity 0.5 * (1 - Real.exp (-5 * min 1 (p / 0.2)))
          * (jsOr params.recovery_speed 0.3 * max 0 ((p - 0.2) / 0.8)) := rfl

/-- Value of `getPriceModifier` on sideways_market, by unfolding. -/
theorem getPriceModifier_eq_sideways (params : Scenarios.ScenarioParams) (p : ℝ) :
    Scenarios.getPriceModifier "sideways_market" params p
      = 1 + jsOr params.range_width 0.1 * Real.sin (p * 10 * Real.pi) := rfl

/-- Value of `getPriceModifier` on high_volatility, by unfolding. -/
theorem getPriceModifier_eq_highvol (params : Scenarios.ScenarioParams) (p : ℝ) :
    Scenarios.getPriceModifier "high_volatility" params p
      = 1 + jsOr params.intensity 0.5 * 0.5 * Real.sin (p * 20 * Real.pi)
        + jsOr params.direction_bias 0 * p := rfl

/-- Value of `getPriceModifier` on liquidity_crisis, by unfolding. -/
theorem getPriceModifier_eq_liquidity (params : Scenarios.ScenarioParams) (p : ℝ) :
    Scenarios.getPriceModifier "liquidity_crisis" params p
      = 1 - jsOr params.intensity 0.5 * 0.3 * p
        + jsOr params.intensity 0.5 * 0.2 * Real.sin (p * 15 * Real.pi) := rfl

/-- Value of `getPriceModifier` on flash_crash, by unfolding. -/
theorem getPriceModifier_eq_flash (params : Scenarios.ScenarioParams) (p : ℝ) :
    Scenarios.getPriceModifier "flash_crash" params p
      = 1 - jsOr params.intensity 0.5 * 0.7
            * (if p < 0.1 then 0 else if p < 0.3 then (p - 0.1) / 0.2 else 1)
        + jsOr params.intensity 0.5 * 0.7 * params.recovery_speed
            * (if p < 0.3 then 0 else (p - 0.3) / 0.7) := rfl

/-- Value of `getPriceModifier` on an unrecognized scenario type is the neutral
modifier 1 (the `default` switch branch). -/
theorem getPriceModifier_eq_default (s : String) (params : Scenarios.ScenarioParams)
    (p : ℝ) (h : s ∉ Scenarios.validScenarios) :
    Scenarios.getPriceModifier s params p = 1 := by
  obtain ⟨h1, h2, h3, h4, h5, h6, h7⟩ :
      s ≠ "bull_market" ∧ s ≠ "bear_market" ∧ s ≠ "market_crash" ∧
      s ≠ "sideways_market" ∧ s ≠ "high_volatility" ∧ s ≠ "liquidity_crisis" ∧
      s ≠ "flash_crash" := by
    simpa [Scenarios.validScenarios, not_or] using h
  simp only [Scenarios.getPriceModifier]
  rw [if_neg h1, if_neg h2, if_neg h3, if_neg h4, if_neg h5, if_neg h6, if_neg h7]


/-- Positivity of the price modifier for every recognized scenario, under
the parameter ranges of the spec, with the two extra conditions that the
code actually needs: a sideways range width below 1 and a high-volatility
amplitude-plus-downward-bias budget below 1. -/
theorem getPriceModifier_pos (s : String) (params : Scenarios.ScenarioParams) (p : ℝ)
    (hvalid : s ∈ Scenarios.validScenarios)
    (hi0 : 0 ≤ params.intensity) (hi1 : params.intensity ≤ 1)
    (hdb0 : -1 ≤ params.direction_bias) (hdb1 : params.direction_bias ≤ 1)
    (hrw0 : 0 ≤ params.range_width) (hrw1 : params.range_width ≤ 1)
    (hrs0 : 0 ≤ params.recovery_speed) (hrs1 : params.recovery_speed ≤ 1)
    (hp0 : 0 ≤ p) (hp1 : p ≤ 1)
    (hsw : s = "sideways_market" → params.range_width < 1)
    (hhv : s = "high_volatility" →
      jsOr params.intensity 0.5 * 0.5 + max 0 (-params.direction_bias) < 1) :
    0 < Scenarios.getPriceModifier s params p := by
  have hie0 : 0 ≤ jsOr params.intensity 0.5 := jsOr_nonneg hi0 (by norm_num)
  have hie1 : jsOr params.intensity 0.5 ≤ 1 := jsOr_le_one hi1 (by norm_num)
  simp only [Scenarios.validScenarios, List.mem_cons, List.mem_singleton,
    List.not_mem_nil, or_false] at hvalid
  rcases hvalid with rfl | rfl | rfl | rfl | rfl | rfl | rfl
  · rw [getPriceModifier_eq_bull]
    nlinarith [mul_nonneg hie0 hp0]
  · rw [getPriceModifier_eq_bear]
    nlinarith [mul_nonneg (mul_nonneg hie0 (by norm_num : (0:ℝ) ≤ 0.7)) hp0]
  · rw [getPriceModifier_eq_crash]
    have hcp0 : (0 : ℝ) ≤ min 1 (p / 0.2) := le_min (by norm_num) (by positivity)
    have hE1 : Real.exp (-5 * min 1 (p / 0.2)) ≤ 1 :=
      Real.exp_le_one_iff.mpr (by nlinarith)
    have hE0 : 0 < Real.exp (-5 * min 1 (p / 0.2)) := Real.exp_pos _
    have hc_le : jsOr params.intensity 0.5 * (1 - Real.exp (-5 * min 1 (p / 0.2)))
        ≤ 1 - Real.exp (-5 * min 1 (p / 0.2)) :=
      mul_le_of_le_one_left (by linarith) hie1
    have hre0 : 0 ≤ jsOr params.recovery_speed 0.3 * max 0 ((p - 0.2) / 0.8) :=
      mul_nonneg (jsOr_nonneg hrs0 (by norm_num)) (le_max_left 0 _)
    have hterm : 0 ≤ jsOr params.intensity 0.5 * (1 - Real.exp (-5 * min 1 (p / 0.2)))
        * (jsOr params.recovery_speed 0.3 * max 0 ((p - 0.2) / 0.8)) :=
      mul_nonneg (mul_nonneg hie0 (by linarith)) hre0
    linarith
  · rw [getPriceModifier_eq_sideways]
    have hrwe0 : 0 ≤ jsOr params.range_width 0.1 := jsOr_nonneg hrw0 (by norm_num)
    have hrwe1 : jsOr params.range_width 0.1 < 1 := by
      unfold jsOr
      split_ifs
      · norm_num
      · exact hsw rfl
    have hsin := Real.neg_one_le_sin (p * 10 * Real.pi)
    nlinarith [mul_le_mul_of_nonneg_left hsin hrwe0]
  · rw [getPriceModifier_eq_highvol, jsOr_zero_right]
    have hm0 : (0 : ℝ) ≤ max 0 (-params.direction_bias) := le_max_left 0 _
    have hmdb : -params.direction_bias ≤ max 0 (-params.direction_bias) :=
      le_max_right 0 _
    have hhv1 := hhv rfl
    have hsin := Real.neg_one_le_sin (p * 20 * Real.pi)
    have hamp0 : 0 ≤ jsOr params.intensity 0.5 * 0.5 := by nlinarith
    have hb1 : jsOr params.intensity 0.5 * 0.5 * (-1)
        ≤ jsOr params.intensity 0.5 * 0.5 * Real.sin (p * 20 * Real.pi) :=
      mul_le_mul_of_nonneg_left hsin hamp0
    have hb2 : -max 0 (-params.direction_bias) * p ≤ params.direction_bias * p :=
      mul_le_mul_of_nonneg_right (by linarith) hp0
    have hb3 : max 0 (-params.direction_bias) * p ≤ max 0 (-params.direction_bias) :=
      mul_le_of_le_one_right hm0 hp1
    nlinarith
  · rw [getPriceModifier_eq_liquidity]
    have hsin := Real.neg_one_le_sin (p * 15 * Real.pi)
    have ha1 : jsOr params.intensity 0.5 * 0.3 * p ≤ 0.3 := by nlinarith
    have hamp : 0 ≤ jsOr params.intensity 0.5 * 0.2 := by nlinarith
    have ha2 : jsOr params.intensity 0.5 * 0.2 * (-1)
        ≤ jsOr params.intensity 0.5 * 0.2 * Real.sin (p * 15 * Real.pi) :=
      mul_le_mul_of_nonneg_left hsin hamp
    nlinarith
  · rw [getPriceModifier_eq_flash]
    have hrse0 : 0 ≤ jsOr params.intensity 0.5 * 0.7 * params.recovery_speed := by
      nlinarith
    split_ifs with h1 h2 h3
    · nlinarith
    · linarith [not_lt.mp h2]
    · have hph0 : (0 : ℝ) ≤ (p - 0.1) / 0.2 :=
        div_nonneg (by linarith [not_lt.mp h1]) (by norm_num)
      have hph1 : (p - 0.1) / 0.2 ≤ 1 := by
        rw [div_le_one (by norm_num : (0 : ℝ) < 0.2)]
        linarith
      have hA : jsOr params.intensity 0.5 * 0.7 * ((p - 0.1) / 0.2) ≤ 0.7 := by
        nlinarith
      linarith
    · have hrc0 : (0 : ℝ) ≤ (p - 0.3) / 0.7 :=
        div_nonneg (by linarith [not_lt.mp h3]) (by norm_num)
      nlinarith [mul_nonneg hrse0 hrc0]

/-- C2 counterexample: within the claimed parameter ranges the price can
be non-positive.  With high_volatility, intensity 1, directionBias -1 at
progress 39/40 the ETH price in the generated snapshot is strictly
negative; with sideways_market and rangeWidth 1 at progress 3/20 it is
exactly 0. -/
theorem C2_counterexample :
    (((Scenarios.generateMarketData "high_volatility"
          { intensity := 1, direction_bias := -1, range_width := 1/2, recovery_speed := 1/2 }
          (39/40) ["ETH"] "" (fun _ _ => 0)).tokens.map fun e => e.2.price)[0]?
        = some (Scenarios.getBasePriceForToken "ETH"
            * Scenarios.getPriceModifier "high_volatility"
              { intensity := 1, direction_bias := -1, range_width := 1/2, recovery_speed := 1/2 }
              (39/40))) ∧
    Scenarios.getBasePriceForToken "ETH"
      * Scenarios.getPriceModifier "high_volatility"
        { intensity := 1, direction_bias := -1, range_width := 1/2, recovery_speed := 1/2 }
        (39/40) < 0 ∧
    (((Scenarios.generateMarketData "sideways_market"
          { intensity := 1/2, direction_bias := 0, range_width := 1, recovery_speed := 1/2 }
          (3/20) ["ETH"] "" (fun _ _ => 0)).tokens.map fun e => e.2.price)[0]?
        = some (Scenarios.getBasePriceForToken "ETH"
            * Scenarios.getPriceModifier "sideways_market"
              { intensity := 1/2, direction_bias := 0, range_width := 1, recovery_speed := 1/2 }
              (3/20))) ∧
    Scenarios.getBasePriceForToken "ETH"
      * Scenarios.getPriceModifier "sideways_market"
        { intensity := 1/2, direction_bias := 0, range_width := 1, recovery_speed := 1/2 }
        (3/20) = 0 := by
  have hbase : Scenarios.getBasePriceForToken "ETH" = 2485 := by
    simp [Scenarios.getBasePriceForToken,
      show Scenarios.simpleHash "ETH" = 68985 from by decide,
      show Scenarios.lowerIncludes "ETH" "eth" = true from by decide,
      show Scenarios.lowerIncludes "ETH" "btc" = false from by decide]
    norm_num
  refine ⟨rfl, ?_, rfl, ?_⟩
  · have hsin : Real.sin ((39/40 : ℝ) * 20 * Real.pi) = -1 := by
      have harg : ((39 : ℝ)/40) * 20 * Real.pi
          = Real.pi/2 + Real.pi + (9 : ℤ) * (2 * Real.pi) := by
        push_cast
        ring
      rw [harg, Real.sin_add_int_mul_two_pi, Real.sin_add_pi, Real.sin_pi_div_two]
    rw [getPriceModifier_eq_highvol, hbase, hsin]
    norm_num [jsOr]
  · have hsin : Real.sin ((3/20 : ℝ) * 10 * Real.pi) = -1 := by
      have harg : ((3 : ℝ)/20) * 10 * Real.pi = Real.pi/2 + Real.pi := by ring
      rw [harg, Real.sin_add_pi, Real.sin_pi_div_two]
    rw [getPriceModifier_eq_sideways, hbase, hsin]
    norm_num [jsOr]

/-- C2 amended: in `generateMarketData`, for every recognized scenario
type, parameters with intensity in [0,1], directionBias in [-1,1],
rangeWidth and recoverySpeed in [0,1], and progress in [0,1], every
per-token price is strictly positive — provided additionally that for
sideways_market the rangeWidth is strictly below 1, and for
high_volatility the oscillation amplitude plus downward bias satisfies
`0.5 * (intensity || 0.5) + max 0 (-directionBias) < 1`. -/
theorem C2_price_positive_amended (s : String) (params : Scenarios.ScenarioParams)
    (p : ℝ) (tokens : List String) (nowIso : String) (rand : ℕ → ℕ → ℝ)
    (k : ℕ) (x : ℝ)
    (hvalid : s ∈ Scenarios.validScenarios)
    (hi0 : 0 ≤ params.intensity) (hi1 : params.intensity ≤ 1)
    (hdb0 : -1 ≤ params.direction_bias) (hdb1 : params.direction_bias ≤ 1)
    (hrw0 : 0 ≤ params.range_width) (hrw1 : params.range_width ≤ 1)
    (hrs0 : 0 ≤ params.recovery_speed) (hrs1 : params.recovery_speed ≤ 1)
    (hp0 : 0 ≤ p) (hp1 : p ≤ 1)
    (hsw : s = "sideways_market" → params.range_width < 1)
    (hhv : s = "high_volatility" →
      jsOr params.intensity 0.5 * 0.5 + max 0 (-params.direction_bias) < 1)
    (hk : ((Scenarios.generateMarketData s params p tokens nowIso rand).tokens.map
        fun e => e.2.price)[k]? = some x) :
    0 < x := by
  rw [generateMarketData_price_map, List.getElem?_map] at hk
  rcases Option.map_eq_some'.mp hk with ⟨t, _, hxt⟩
  rw [← hxt]
  exact mul_pos (getBasePriceForToken_pos t)
    (getPriceModifier_pos s params p hvalid hi0 hi1 hdb0 hdb1 hrw0 hrw1 hrs0 hrs1
      hp0 hp1 hsw hhv)

/-- Witness for C2 amended: the ETH price of a bull_market snapshot at
progress 0 with default parameters. -/
theorem C2_witness :
    0 < Scenarios.getBasePriceForToken "ETH"
        * Scenarios.getPriceModifier "bull_market" {} 0 :=
  C2_price_positive_amended "bull_market" {} 0 ["ETH"] "" (fun _ _ => 0) 0 _
    (by decide)
    (le_refl 0) (by norm_num : (0:ℝ) ≤ 1) (by norm_num : (-1:ℝ) ≤ 0)
    (by norm_num : (0:ℝ) ≤ 1) (le_refl 0) (by norm_num : (0:ℝ) ≤ 1)
    (le_refl 0) (by norm_num : (0:ℝ) ≤ 1) (le_refl 0) (by norm_num : (0:ℝ) ≤ 1)
    (fun h => absurd h (by decide)) (fun h => absurd h (by decide)) rfl

/-- Value of `getVolumeModifier` on an unrecognized scenario type is the neutral
modifier 1 (the `default` switch branch). -/
theorem getVolumeModifier_eq_default (s : String) (params : Scenarios.ScenarioParams)
    (p : ℝ) (h : s ∉ Scenarios.validScenarios) :
    Scenarios.getVolumeModifier s params p = 1 := by
  obtain ⟨h1, h2, h3, h4, h5, h6, h7⟩ :
      s ≠ "bull_market" ∧ s ≠ "bear_market" ∧ s ≠ "market_crash" ∧
      s ≠ "sideways_market" ∧ s ≠ "high_volatility" ∧ s ≠ "liquidity_crisis" ∧
      s ≠ "flash_crash" := by
    simpa [Scenarios.validScenarios, not_or] using h
  simp only [Scenarios.getVolumeModifier]
  rw [if_neg h1, if_neg h2, if_neg h3, if_neg h4, if_neg h5, if_neg h6, if_neg h7]

/-- The `default` branch of the market-metrics switch repeats the
bull_market formulas, so unrecognized types get bull_market metrics. -/
theorem scenarioMarketMetrics_default_eq_bull (s : String) (p : ℝ)
    (h : s ∉ Scenarios.validScenarios) :
    Scenarios.scenarioMarketMetrics s p
      = Scenarios.scenarioMarketMetrics "bull_market" p := by
  obtain ⟨h1, h2, h3, h4, h5, h6, h7⟩ :
      s ≠ "bull_market" ∧ s ≠ "bear_market" ∧ s ≠ "market_crash" ∧
      s ≠ "sideways_market" ∧ s ≠ "high_volatility" ∧ s ≠ "liquidity_crisis" ∧
      s ≠ "flash_crash" := by
    simpa [Scenarios.validScenarios, not_or] using h
  simp only [Scenarios.scenarioMarketMetrics]
  rw [if_neg h1, if_neg h2, if_neg h3, if_neg h4, if_neg h5, if_neg h6, if_neg h7]
  rfl

/-- Fallback `configs[scenarioType] || configs['bull_market']`: unrecognized types
get the bull_market configuration. -/
theorem getScenarioConfig_default_eq_bull (s : String) (params : Scenarios.ScenarioParams)
    (h : s ∉ Scenarios.validScenarios) :
    Scenarios.getScenarioConfig s params
      = Scenarios.getScenarioConfig "bull_market" params := by
  obtain ⟨h1, h2, h3, h4, h5, h6, h7⟩ :
      s ≠ "bull_market" ∧ s ≠ "bear_market" ∧ s ≠ "market_crash" ∧
      s ≠ "sideways_market" ∧ s ≠ "high_volatility" ∧ s ≠ "liquidity_crisis" ∧
      s ≠ "flash_crash" := by
    simpa [Scenarios.validScenarios, not_or] using h
  simp only [Scenarios.getScenarioConfig]
  rw [if_neg h1, if_neg h2, if_neg h3, if_neg h4, if_neg h5, if_neg h6, if_neg h7]
  rfl

/-- The per-token volumes of `generateMarketData` are the floored product
of 1000000 with the volume modifier. -/
theorem generateMarketData_volume_map (s : String) (params : Scenarios.ScenarioParams)
    (p : ℝ) (tokens : List String) (nowIso : String) (rand : ℕ → ℕ → ℝ) :
    ((Scenarios.generateMarketData s params p tokens nowIso rand).tokens.map
        fun e => e.2.volume)
      = tokens.map fun _ => (⌊1000000 * Scenarios.getVolumeModifier s params p⌋ : ℤ) := by
  simp only [Scenarios.generateMarketData, List.map_map]
  exact map_snd_enum (fun _ => ⌊1000000 * Scenarios.getVolumeModifier s params p⌋) tokens

/-- C3 counterexample: with an unrecognized scenario type ("foo") the
per-token prices of `getScenarioData` differ from those of
"bull_market" at the same arguments (2485 versus 2485 * 1.5 for ETH at
progress 1): only the configuration and the aggregate metrics fall back
to bull_market; the modifiers fall back to the neutral 1. -/
theorem C3_counterexample :
    ((Scenarios.getScenarioData "foo" {} 0 604800000 ["ETH"] "" (fun _ _ => 0)).tokens.map
        fun e => e.2.price)
      ≠ ((Scenarios.getScenarioData "bull_market" {} 0 604800000 ["ETH"] "" (fun _ _ => 0)).tokens.map
        fun e => e.2.price) := by
  have hbase : Scenarios.getBasePriceForToken "ETH" = 2485 := by
    simp [Scenarios.getBasePriceForToken,
      show Scenarios.simpleHash "ETH" = 68985 from by decide,
      show Scenarios.lowerIncludes "ETH" "eth" = true from by decide,
      show Scenarios.lowerIncludes "ETH" "btc" = false from by decide]
    norm_num
  have hdur : (Scenarios.getScenarioConfig "bull_market" ({} : Scenarios.ScenarioParams)).duration
      = jsOr 0 (7 * 24 * 60 * 60) := rfl
  have hdur2 : (Scenarios.getScenarioConfig "foo" ({} : Scenarios.ScenarioParams)).duration
      = jsOr 0 (7 * 24 * 60 * 60) := by
    rw [getScenarioConfig_default_eq_bull "foo" {} (by decide)]
    exact hdur
  have hjs : jsOr 0 (7 * 24 * 60 * 60) = (604800 : ℝ) := by norm_num [jsOr]
  have hprog : min 1 (max 0 (((604800000 : ℝ) - 0) / ((604800 : ℝ) * 1000))) = 1 := by
    norm_num
  intro hEq
  simp only [Scenarios.getScenarioData, hdur, hdur2, hjs, hprog] at hEq
  rw [generateMarketData_price_map, generateMarketData_price_map,
    getPriceModifier_eq_default "foo" {} 1 (by decide),
    getPriceModifier_eq_bull] at hEq
  simp only [List.map_cons, List.map_nil, List.cons.injEq, and_true] at hEq
  rw [hbase] at hEq
  norm_num [jsOr] at hEq

/-- C3 amended: for an unrecognized scenario type, `getScenarioData` does
not raise an error and uses the bull_market configuration (hence the same
progress) and the bull_market aggregate metrics, but the per-token data
fall back to the neutral modifiers of the `default` switch branches:
every price equals the token's base price (modifier 1, not the bull
ramp) and every volume equals 1000000. -/
theorem C3_unknown_scenario_amended (s : String) (params : Scenarios.ScenarioParams)
    (startTime currentTime : ℝ) (tokens : List String) (nowIso : String)
    (rand : ℕ → ℕ → ℝ) (hs : s ∉ Scenarios.validScenarios) :
    Scenarios.getScenarioConfig s params = Scenarios.getScenarioConfig "bull_market" params ∧
    (Scenarios.getScenarioData s params startTime currentTime tokens nowIso rand).progress
      = (Scenarios.getScenarioData "bull_market" params startTime currentTime tokens nowIso rand).progress ∧
    (Scenarios.getScenarioData s params startTime currentTime tokens nowIso rand).marketMetrics
      = (Scenarios.getScenarioData "bull_market" params startTime currentTime tokens nowIso rand).marketMetrics ∧
    ((Scenarios.getScenarioData s params startTime currentTime tokens nowIso rand).tokens.map
        fun e => e.2.price)
      = tokens.map (fun t => Scenarios.getBasePriceForToken t) ∧
    ((Scenarios.getScenarioData s params startTime currentTime tokens nowIso rand).tokens.map
        fun e => e.2.volume)
      = tokens.map fun _ => (1000000 : ℤ) := by
  have hconf := getScenarioConfig_default_eq_bull s params hs
  refine ⟨hconf, ?_, ?_, ?_, ?_⟩
  · simp only [Scenarios.getScenarioData, Scenarios.generateMarketData, hconf]
  · simp only [Scenarios.getScenarioData, Scenarios.generateMarketData, hconf]
    exact scenarioMarketMetrics_default_eq_bull s _ hs
  · simp only [Scenarios.getScenarioData]
    rw [generateMarketData_price_map, getPriceModifier_eq_default s params _ hs]
    simp [mul_one]
  · simp only [Scenarios.getScenarioData]
    rw [generateMarketData_volume_map, getVolumeModifier_eq_default s params _ hs]
    norm_num

/-- Witness for C3 amended: the config fallback at the concrete
unrecognized type "foo". -/
theorem C3_witness :
    Scenarios.getScenarioConfig "foo" {} = Scenarios.getScenarioConfig "bull_market" {} :=
  (C3_unknown_scenario_amended "foo" {} 0 0 [] "" (fun _ _ => 0) (by decide)).1
